import Mathlib

/-!
Verification development for the `wienerlinien` Home Assistant integration.

The Python sources are shallowly embedded as Lean definitions:

* `custom_components/wienerlinien/entity.py` — the typed data model
  (`Coordinates`, `StopLocation`, `DepartureTime`, `Vehicle`, `Departure`,
  `Line`, `Monitor`) together with its `from_dict` constructors.  Raw JSON
  dictionaries are embedded as `Raw*` structures whose fields are `Option`s
  (a `none` field models an absent key); a Python `KeyError`/exception during
  construction is modelled by the constructor returning `none`.
  Timestamps (`datetime`) are modelled as `Int` seconds; the float coordinate
  pair is modelled with `Int` scalars (no claim inspects coordinate values).
* `custom_components/wienerlinien/__init__.py` — the fetch/cache/retry client
  `WienerLinienAPI.get_json` (modelled by `getJson` over an explicit list of
  per-attempt network outcomes) and the normalizer `parse_api_response`.
* `custom_components/wienerlinien/sensor.py` — `LineEntity._filtered_departures`
  and `LineEntity.native_value` (modelled by `filteredDepartures` and
  `nativeValue`).  Python's stable `sorted` is modelled by
  `List.insertionSort`, which is also stable, so both produce the same list.
  Python's `int(x)` truncation toward zero on the seconds/60 quotient is
  modelled by `Int.tdiv`.
-/

/-! ## Data model (`entity.py`) -/

structure Coordinates where
  longitude : Int
  latitude : Int
deriving DecidableEq

/-- `Coordinates.from_dict`: built from `data[0]`, `data[1]`; a list with
fewer than two elements raises `IndexError`, modelled as `none`. -/
def Coordinates.from_dict (data : List Int) : Option Coordinates :=
  match data with
  | a :: b :: _ => some ⟨a, b⟩
  | _ => none

structure StopLocation where
  name : String
  title : String
  municipality : String
  rbl : Int
  coordinates : Coordinates
deriving DecidableEq

structure RawAttributes where
  rbl : Option Int
deriving DecidableEq

structure RawStopProperties where
  name : Option String
  title : Option String
  municipality : Option String
  attributes : Option RawAttributes
deriving DecidableEq

structure RawGeometry where
  coordinates : Option (List Int)
deriving DecidableEq

structure RawLocationStop where
  properties : Option RawStopProperties
  geometry : Option RawGeometry
deriving DecidableEq

/-- `StopLocation.from_dict`: every indexed key is required. -/
def StopLocation.from_dict (data : RawLocationStop) : Option StopLocation := do
  let properties ← data.properties
  let name ← properties.name
  let title ← properties.title
  let municipality ← properties.municipality
  let attributes ← properties.attributes
  let rbl ← attributes.rbl
  let geometry ← data.geometry
  let coordsRaw ← geometry.coordinates
  let coordinates ← Coordinates.from_dict coordsRaw
  pure ⟨name, title, municipality, rbl, coordinates⟩

structure DepartureTime where
  time_planned : Int
  time_real : Option Int
  countdown : Int
deriving DecidableEq

structure RawDepartureTime where
  timePlanned : Option Int
  timeReal : Option Int
  countdown : Option Int
deriving DecidableEq

/-- `DepartureTime.from_dict`: `timePlanned` and `countdown` are required;
`timeReal` is read only `if "timeReal" in data`. -/
def DepartureTime.from_dict (data : RawDepartureTime) : Option DepartureTime := do
  let time_planned ← data.timePlanned
  let countdown ← data.countdown
  pure ⟨time_planned, data.timeReal, countdown⟩

structure Vehicle where
  name : String
  towards : String
  direction : String
  platform : String
  barrier_free : Bool
  line_id : Int
  vehicle_type : String
  realtime_supported : Bool
  traffic_jam : Bool
deriving DecidableEq

/-- Raw vehicle block.  `linienId` is the only numeric-line-id key the code
reads; `lineId` models the alternative raw spelling that can occur in a feed
but which `Vehicle.from_dict` never consults. -/
structure RawVehicle where
  name : Option String
  towards : Option String
  direction : Option String
  platform : Option String
  barrierFree : Option Bool
  linienId : Option Int
  lineId : Option Int
  type : Option String
  realtimeSupported : Option Bool
  trafficjam : Option Bool
deriving DecidableEq

/-- `Vehicle.from_dict`: all indexed keys required; the line id is taken
from `data["linienId"]` only. -/
def Vehicle.from_dict (data : RawVehicle) : Option Vehicle := do
  let name ← data.name
  let towards ← data.towards
  let direction ← data.direction
  let platform ← data.platform
  let barrier_free ← data.barrierFree
  let line_id ← data.linienId
  let vehicle_type ← data.type
  let realtime_supported ← data.realtimeSupported
  let traffic_jam ← data.trafficjam
  pure ⟨name, towards, direction, platform, barrier_free, line_id,
        vehicle_type, realtime_supported, traffic_jam⟩

structure Departure where
  departure_time : DepartureTime
  vehicle : Vehicle
deriving DecidableEq

/-- Raw entry of `departures.departure[]`.  Both sub-records are optional in
the raw feed; `Departure.from_dict` indexes both unconditionally. -/
structure RawDeparture where
  departureTime : Option RawDepartureTime
  vehicle : Option RawVehicle
deriving DecidableEq

/-- `Departure.from_dict`: `data["departureTime"]` and `data["vehicle"]` are
both direct indexes, so each is required per departure entry. -/
def Departure.from_dict (data : RawDeparture) : Option Departure := do
  let dtRaw ← data.departureTime
  let departure_time ← DepartureTime.from_dict dtRaw
  let vRaw ← data.vehicle
  let vehicle ← Vehicle.from_dict vRaw
  pure ⟨departure_time, vehicle⟩

structure Line where
  name : String
  towards : String
  direction : String
  platform : String
  barrier_free : Bool
  line_id : Int
  line_type : String
  departures : List Departure
deriving DecidableEq

/-- Raw line block.  `departures` models
`data.get("departures", {}).get("departure", [])` (missing levels default to
`[]` via `Option.getD`).  The `vehicle` field models a line-level vehicle
block (as the metro feed supplies); `Line.from_dict` never reads it. -/
structure RawLine where
  name : Option String
  towards : Option String
  direction : Option String
  platform : Option String
  barrierFree : Option Bool
  lineId : Option Int
  type : Option String
  departures : Option (List RawDeparture)
  vehicle : Option RawVehicle
deriving DecidableEq

/-- `Line.from_dict`: the named keys are required; every entry of the
departures list is parsed with `Departure.from_dict`, a failure anywhere
failing the whole line (the Python exception propagates). -/
def Line.from_dict (data : RawLine) : Option Line := do
  let name ← data.name
  let towards ← data.towards
  let direction ← data.direction
  let platform ← data.platform
  let barrier_free ← data.barrierFree
  let line_id ← data.lineId
  let line_type ← data.type
  let departures ← (data.departures.getD []).mapM Departure.from_dict
  pure ⟨name, towards, direction, platform, barrier_free, line_id,
        line_type, departures⟩

structure Monitor where
  location : StopLocation
  lines : List Line
deriving DecidableEq

/-- Raw monitor block; `attributes` is the monitor-level attribute block,
whose content is never inspected, abstracted to an `Int` payload. -/
structure RawMonitor where
  locationStop : Option RawLocationStop
  lines : Option (List RawLine)
  attributes : Option Int
deriving DecidableEq

/-- `Monitor.from_dict`: `data["locationStop"]` and `data["lines"]` are
direct indexes; a failing line fails the whole monitor. -/
def Monitor.from_dict (data : RawMonitor) : Option Monitor := do
  let ls ← data.locationStop
  let location ← StopLocation.from_dict ls
  let rawLines ← data.lines
  let lines ← rawLines.mapM Line.from_dict
  pure ⟨location, lines⟩

/-- Effective departure time:
`departure_time.time_real or departure_time.time_planned` (a `datetime` is
always truthy, so `or` selects `time_real` exactly when it is not `None`). -/
def effTime (d : Departure) : Int :=
  d.departure_time.time_real.getD d.departure_time.time_planned

/-- `Monitor.next_departures`: for each line with a non-empty departure list
take `line.departures[0]`, label it, and sort the pairs by their time.
Python's `sorted` is stable, as is `List.insertionSort`. -/
def Monitor.next_departures (m : Monitor) : List (String × Int) :=
  List.insertionSort (fun a b => a.2 ≤ b.2)
    (m.lines.filterMap (fun line =>
      match line.departures with
      | [] => none
      | next :: _ => some (line.name ++ " to " ++ line.towards, effTime next)))

/-! ## Transit client (`__init__.py`, `WienerLinienAPI.get_json`) -/

/-- The `rbl` chain
`monitor.get("locationStop", {}).get("properties", {}).get("attributes", {}).get("rbl")`,
which yields `None` whenever any level is absent. -/
def stopRbl (locationStop : Option RawLocationStop) : Option Int :=
  ((locationStop.bind RawLocationStop.properties).bind
    RawStopProperties.attributes).bind RawAttributes.rbl

/-- The stop identifier the merge step reads off a raw monitor block. -/
def rawRbl (m : RawMonitor) : Option Int :=
  stopRbl m.locationStop

/-- One value of the `processed_monitors` dict: first-seen `locationStop`
and `attributes`, plus the accumulated `lines`. -/
structure MergedMonitor where
  locationStop : Option RawLocationStop
  lines : List RawLine
  attributes : Option Int
deriving DecidableEq

/-- In-place `processed_monitors[rbl]["lines"].extend(lines)`: the first
entry keyed `r` has its lines extended, everything else is untouched. -/
def updateEntry : List (Int × MergedMonitor) → Int → List RawLine →
    List (Int × MergedMonitor)
  | [], _, _ => []
  | (k, e) :: rest, r, ls =>
    if k == r then (k, { e with lines := e.lines ++ ls }) :: rest
    else (k, e) :: updateEntry rest r ls

/-- One iteration of the merge loop: skip the block when the `rbl` chain is
missing or falsy (`if not rbl`, i.e. `None` or `0`) or when
`monitor.get("lines", [])` is empty; otherwise extend an existing entry or
append a new one (Python dicts preserve insertion order). -/
def processBlock (s : List (Int × MergedMonitor)) (m : RawMonitor) :
    List (Int × MergedMonitor) :=
  match rawRbl m with
  | none => s
  | some r =>
    if r == 0 then s
    else
      let ls := m.lines.getD []
      if ls.isEmpty then s
      else
        match List.lookup r s with
        | some _ => updateEntry s r ls
        | none => s ++ [(r, ⟨m.locationStop, ls, m.attributes⟩)]

/-- The whole merge pass over `data["data"]["monitors"]`, as a keyed
association list mirroring the `processed_monitors` dict. -/
def mergeMonitors (ms : List RawMonitor) : List (Int × MergedMonitor) :=
  ms.foldl processBlock []

/-- `list(processed_monitors.values())` — what is written back into
`data["data"]["monitors"]`, cached, and returned. -/
def mergedSnapshot (ms : List RawMonitor) : List MergedMonitor :=
  (mergeMonitors ms).map Prod.snd

/-- Outcome of one network attempt: a 2xx JSON response (carrying the raw
monitor blocks), an `asyncio.TimeoutError`, or an `aiohttp.ClientError`. -/
inductive AttemptResult where
  | success (monitors : List RawMonitor)
  | timeout
  | connError
deriving DecidableEq

/-- One `self._cache[cache_key]` value: `(data, timestamp)`. -/
structure CacheEntry where
  data : List MergedMonitor
  timestamp : Nat
deriving DecidableEq

/-- Observable behaviour of one `get_json` call: how many network attempts
were issued, the `asyncio.sleep` delays between them, the returned data
(`none` models returning `None`), and the cache afterwards. -/
structure FetchOutcome where
  attempts : Nat
  sleeps : List Nat
  result : Option (List MergedMonitor)
  cache : List (String × CacheEntry)
deriving DecidableEq

/-- The `for retry in range(self._retry_count)` loop with
`_retry_count = 3` and `_retry_delay = 1`, consuming one oracle outcome per
attempt.  On success the response is merged, cached under `key` and
returned.  On timeout the delay `1 * 2 ** retry` is slept only when
`retry < self._retry_count - 1`, then the loop continues; when the range is
exhausted control falls out of the loop and `get_json` returns `None`
without touching the cache.  On a connection error the cached entry (of any
age) is returned when present, else the loop breaks and `None` is
returned. -/
def runAttempts (key : String) (now : Nat) :
    List AttemptResult → List (String × CacheEntry) → Nat → FetchOutcome
  | [], cache, _ => ⟨0, [], none, cache⟩
  | .success ms :: _, cache, _ =>
    let merged := mergedSnapshot ms
    ⟨1, [], some merged, (key, ⟨merged, now⟩) :: cache⟩
  | .timeout :: rest, cache, retry =>
    if retry < 2 then
      let next := runAttempts key now rest cache (retry + 1)
      ⟨next.attempts + 1, (2 ^ retry) :: next.sleeps, next.result, next.cache⟩
    else ⟨1, [], none, cache⟩
  | .connError :: _, cache, _ =>
    match List.lookup key cache with
    | some entry => ⟨1, [], some entry.data, cache⟩
    | none => ⟨1, [], none, cache⟩

/-- Whether the cache entry for `key` short-circuits the network call:
`datetime.now() - timestamp < self._cache_timeout` with a 30-unit window. -/
def cacheFresh (cache : List (String × CacheEntry)) (key : String)
    (now : Nat) : Bool :=
  match List.lookup key cache with
  | some entry => now - entry.timestamp < 30
  | none => false

/-- `WienerLinienAPI.get_json`: serve a fresh cache entry without any
network attempt, otherwise run the retry loop. -/
def getJson (outcomes : List AttemptResult)
    (cache : List (String × CacheEntry)) (key : String) (now : Nat) :
    FetchOutcome :=
  match List.lookup key cache with
  | some entry =>
    if now - entry.timestamp < 30 then ⟨0, [], some entry.data, cache⟩
    else runAttempts key now outcomes cache 0
  | none => runAttempts key now outcomes cache 0

/-! ## Normalizer (`__init__.py`, `parse_api_response`) -/

structure RawDataBlock where
  monitors : Option (List RawMonitor)
deriving DecidableEq

structure RawResponse where
  data : Option RawDataBlock
deriving DecidableEq

/-- `parse_api_response`: absence of the `data`/`monitors` container is a
structural failure yielding `[]`; otherwise each monitor block is parsed in
its own `try`, a failing block being skipped while the rest are kept. -/
def parse_api_response (response : RawResponse) : List Monitor :=
  match response.data with
  | none => []
  | some block =>
    match block.monitors with
    | none => []
    | some ms => ms.filterMap Monitor.from_dict

/-- A well-formed response wrapper around a list of raw monitor blocks. -/
def mkResponse (ms : List RawMonitor) : RawResponse :=
  ⟨some ⟨some ms⟩⟩

/-! ## Departure board sensor (`sensor.py`, `LineEntity`) -/

/-- The inner loop body of `LineEntity._filtered_departures` for one
matching line: filter by `vehicle.direction` and `vehicle.towards`, then
`sorted(..., key=lambda x: x.departure_time.time_planned)` (stable). -/
def sortedFilteredForLine (line : Line) (direction towards : String) :
    List Departure :=
  List.insertionSort
    (fun a b => a.departure_time.time_planned ≤ b.departure_time.time_planned)
    (line.departures.filter
      (fun dep => dep.vehicle.direction == direction &&
                  dep.vehicle.towards == towards))

/-- `LineEntity._filtered_departures`: scan the coordinator's monitors; for
each monitor matching the entity's stop `rbl`, the first line matching the
entity's `line_id` (the inner loop breaks) overwrites the cached result
(the outer loop does not break); when nothing matched the result is `[]`. -/
def filteredDepartures (monitors : List Monitor) (rbl lineId : Int)
    (direction towards : String) : List Departure :=
  (monitors.foldl
    (fun acc m =>
      if m.location.rbl == rbl then
        match m.lines.find? (fun l => l.line_id == lineId) with
        | some l => some (sortedFilteredForLine l direction towards)
        | none => acc
      else acc)
    none).getD []

/-- `LineEntity.native_value`: classify the next filtered departure.
`int((departure_time - now).total_seconds() / 60)` truncates toward zero,
which on whole seconds is `Int.tdiv` of the second difference by 60. -/
def nativeValue (monitors : List Monitor) (rbl lineId : Int)
    (direction towards : String) (now : Int) : Option String :=
  match filteredDepartures monitors rbl lineId direction towards with
  | [] => none
  | next :: _ =>
    let departureTime := effTime next
    let minutes := Int.tdiv (departureTime - now) 60
    if minutes < 0 then some "Departed"
    else if minutes = 0 then some "Now"
    else some ("Arriving in " ++ toString minutes ++ " min")

/-! ## Concrete instances used by counterexamples and witnesses -/

/-- A parsed tram vehicle. -/
def tramVehicle : Vehicle :=
  ⟨"26", "Strebersdorf", "H", "1", true, 126, "ptTram", true, false⟩

/-- A parsed stop location with stop id 10. -/
def stopA : StopLocation := ⟨"stopA", "Stop A", "Wien", 10, ⟨16, 48⟩⟩

/-- A monitor whose only matching departure has real time 999 (one second
before the probe instant 1000). -/
def monNowBoundary : Monitor :=
  ⟨stopA, [⟨"26", "Strebersdorf", "H", "1", true, 126, "ptTram",
    [⟨⟨999, some 999, 0⟩, tramVehicle⟩]⟩]⟩

/-- A monitor whose only matching departure has planned time 1061
(sixty-one seconds after the probe instant 1000) and no real time. -/
def monArriving : Monitor :=
  ⟨stopA, [⟨"26", "Strebersdorf", "H", "1", true, 126, "ptTram",
    [⟨⟨1061, none, 1⟩, tramVehicle⟩]⟩]⟩

/-- A raw metro vehicle block carrying `linienId`. -/
def metroVehicleRaw : RawVehicle :=
  ⟨some "U1", some "Leopoldau", some "H", some "1", some true, some 301,
   none, some "ptMetro", some true, some false⟩

/-- A raw departure entry holding only a `departureTime` sub-record, as the
metro feed emits them: no per-departure `vehicle` sub-record. -/
def metroDepEntry (t : Int) : RawDeparture :=
  ⟨some ⟨some t, some t, some 3⟩, none⟩

/-- A raw metro-type line block: one line-level vehicle record, three
departure-time records, no per-departure vehicle sub-records. -/
def metroRawLine : RawLine :=
  ⟨some "U1", some "Leopoldau", some "H", some "1", some true, some 301,
   some "ptMetro", some [metroDepEntry 100, metroDepEntry 200, metroDepEntry 300],
   some metroVehicleRaw⟩

/-- Like `metroRawLine` but with two departure-time records. -/
def metroRawLine2 : RawLine :=
  ⟨some "U1", some "Leopoldau", some "H", some "1", some true, some 301,
   some "ptMetro", some [metroDepEntry 100, metroDepEntry 200],
   some metroVehicleRaw⟩

/-- A raw vehicle whose numeric line id appears only under the alternative
spelling `lineId`; the `linienId` key the code reads is absent. -/
def altIdVehicleRaw : RawVehicle :=
  ⟨some "U1", some "Leopoldau", some "H", some "1", some true, none,
   some 301, some "ptMetro", some true, some false⟩

/-- A complete raw tram vehicle (with `linienId`). -/
def goodVehicleRaw : RawVehicle :=
  ⟨some "31", some "Stammersdorf", some "H", some "2", some true, some 231,
   none, some "ptTram", some true, some false⟩

/-- A raw departure entry that parses successfully. -/
def goodDepRaw : RawDeparture :=
  ⟨some ⟨some 100, some 102, some 2⟩, some goodVehicleRaw⟩

/-- A raw line block all of whose fields parse. -/
def goodRawLine : RawLine :=
  ⟨some "31", some "Stammersdorf", some "H", some "2", some true, some 231,
   some "ptTram", some [goodDepRaw], none⟩

/-- A raw line whose single departure carries `altIdVehicleRaw` (line id
only under the alternative field name). -/
def altIdRawLine : RawLine :=
  ⟨some "U1", some "Leopoldau", some "H", some "1", some true, some 301,
   some "ptMetro", some [⟨some ⟨some 100, none, some 2⟩, some altIdVehicleRaw⟩], none⟩

/-- A raw departure entry whose `departureTime` lacks the `countdown` key. -/
def noCountdownDepRaw : RawDeparture :=
  ⟨some ⟨some 100, some 100, none⟩, some goodVehicleRaw⟩

/-- A raw line whose single departure time lacks `countdown`. -/
def noCountdownRawLine : RawLine :=
  ⟨some "31", some "Stammersdorf", some "H", some "2", some true, some 231,
   some "ptTram", some [noCountdownDepRaw], none⟩

/-- A complete raw stop-location block with stop id 10. -/
def locRawA : RawLocationStop :=
  ⟨some ⟨some "stopA", some "Stop A", some "Wien", some ⟨some 10⟩⟩,
   some ⟨some [16, 48]⟩⟩

/-- A complete raw stop-location block with stop id 20. -/
def locRawB : RawLocationStop :=
  ⟨some ⟨some "stopB", some "Stop B", some "Wien", some ⟨some 20⟩⟩,
   some ⟨some [16, 48]⟩⟩

/-- A raw monitor whose first line fails to parse (vehicle without
`linienId`) while its second line is fine. -/
def altIdMonitorRaw : RawMonitor :=
  ⟨some locRawA, some [altIdRawLine, goodRawLine], none⟩

/-- A raw monitor whose second line fails to parse (missing `countdown`)
while its first line is fine. -/
def noCountdownMonitorRaw : RawMonitor :=
  ⟨some locRawB, some [goodRawLine, noCountdownRawLine], none⟩

/-- A raw monitor that parses completely. -/
def goodMonitorRaw : RawMonitor := ⟨some locRawB, some [goodRawLine], none⟩

/-- The parsed image of `goodRawLine`. -/
def goodLineParsed : Line :=
  ⟨"31", "Stammersdorf", "H", "2", true, 231, "ptTram",
   [⟨⟨100, some 102, 2⟩, ⟨"31", "Stammersdorf", "H", "2", true, 231,
     "ptTram", true, false⟩⟩]⟩

/-- The parsed image of `goodMonitorRaw`. -/
def goodMonitorParsed : Monitor :=
  ⟨⟨"stopB", "Stop B", "Wien", 20, ⟨16, 48⟩⟩, [goodLineParsed]⟩

/-- A raw stop-location block whose `rbl` is 1 (no geometry needed by the
merge step). -/
def locRawR1 : RawLocationStop :=
  ⟨some ⟨some "x", some "X", some "Wien", some ⟨some 1⟩⟩, none⟩

/-- A raw stop-location block whose `rbl` is the falsy value 0. -/
def locRawR0 : RawLocationStop :=
  ⟨some ⟨some "z", some "Z", some "Wien", some ⟨some 0⟩⟩, none⟩

/-- A raw monitor with stop id 1 and an empty `lines` list. -/
def emptyLinesBlock : RawMonitor := ⟨some locRawR1, some [], none⟩

/-- A raw monitor with falsy stop id 0 and a non-empty `lines` list. -/
def zeroRblBlock : RawMonitor := ⟨some locRawR0, some [goodRawLine], none⟩

/-- First raw monitor block for stop 1 (lines `[goodRawLine]`). -/
def stop1BlockA : RawMonitor := ⟨some locRawR1, some [goodRawLine], none⟩

/-- Second raw monitor block for stop 1 (lines `[altIdRawLine]`). -/
def stop1BlockB : RawMonitor := ⟨some locRawR1, some [altIdRawLine], none⟩

/-- A stale cache holding one entry for the queried stop set. -/
def staleCache : List (String × CacheEntry) := [("490111042", ⟨[], 0⟩)]

/-- A monitor used by the next-departure claims: its single line's
departures appear in feed order latest-first (planned 200 before 100). -/
def monFeedOrder : Monitor :=
  ⟨stopA, [⟨"26", "Strandbad", "H", "1", true, 126, "ptTram",
    [⟨⟨200, none, 3⟩, tramVehicle⟩, ⟨⟨100, none, 1⟩, tramVehicle⟩]⟩]⟩

/-- A monitor with two lines, used as witness input: line 26's first feed
departure is at 100, line 31's at 50. -/
def monTwoLines : Monitor :=
  ⟨stopA, [⟨"26", "Strandbad", "H", "1", true, 126, "ptTram",
    [⟨⟨100, none, 1⟩, tramVehicle⟩, ⟨⟨200, none, 3⟩, tramVehicle⟩]⟩,
   ⟨"31", "Stammersdorf", "H", "2", true, 231, "ptTram",
    [⟨⟨50, some 55, 0⟩, tramVehicle⟩]⟩]⟩

/-! ## Helper lemmas -/

theorem tdiv_sixty_neg {x : Int} (h : x ≤ -60) : Int.tdiv x 60 < 0 := by
  have h2 : 1 ≤ Int.tdiv (-x) 60 := by
    rw [Int.tdiv_eq_ediv (by omega) (by norm_num),
      Int.le_ediv_iff_mul_le (by norm_num : (0:Int) < 60)]
    omega
  have h3 : x = -(-x) := by ring
  rw [h3, Int.neg_tdiv]
  linarith

theorem tdiv_sixty_zero {x : Int} (h1 : -60 < x) (h2 : x < 60) :
    Int.tdiv x 60 = 0 := by
  rcases le_or_lt 0 x with h | h
  · exact Int.tdiv_eq_zero_of_lt h h2
  · have h3 : x = -(-x) := by ring
    rw [h3, Int.neg_tdiv, Int.tdiv_eq_zero_of_lt (by omega) (by omega)]
    rfl

theorem tdiv_sixty_pos {x : Int} (h : 60 ≤ x) : 1 ≤ Int.tdiv x 60 := by
  rw [Int.tdiv_eq_ediv (by omega) (by norm_num),
    Int.le_ediv_iff_mul_le (by norm_num : (0:Int) < 60)]
  omega

theorem mapM_option_eq_none {α β : Type} (f : α → Option β) (as : List α)
    (a : α) (ha : a ∈ as) (hf : f a = none) : as.mapM f = none := by
  induction as with
  | nil => cases ha
  | cons x xs ih =>
    rcases List.mem_cons.mp ha with h | h
    · subst h
      rw [List.mapM_cons, hf]
      rfl
    · rw [List.mapM_cons]
      cases hx : f x
      · rfl
      · rw [ih h]
        rfl

theorem Departure.from_dict_eq_none_of_no_vehicle {e : RawDeparture}
    (hv : e.vehicle = none) : Departure.from_dict e = none := by
  cases hdt : e.departureTime with
  | none => simp [Departure.from_dict, hdt]
  | some dt =>
    cases hpt : DepartureTime.from_dict dt <;>
      simp [Departure.from_dict, hdt, hpt, hv]

theorem getJson_stale (outs : List AttemptResult)
    (cache : List (String × CacheEntry)) (key : String) (now : Nat)
    (h : cacheFresh cache key now = false) :
    getJson outs cache key now = runAttempts key now outs cache 0 := by
  unfold cacheFresh at h
  cases hl : List.lookup key cache with
  | none => simp only [getJson, hl]
  | some entry =>
    rw [hl] at h
    simp only [decide_eq_false_iff_not] at h
    simp only [getJson, hl]
    rw [if_neg h]

theorem filter_updateEntry_ne {s : List (Int × MergedMonitor)} {r r' : Int}
    (h : r' ≠ r) (ls : List RawLine) :
    (updateEntry s r' ls).filter (fun p => p.1 == r) =
      s.filter (fun p => p.1 == r) := by
  induction s with
  | nil => rfl
  | cons hd tl ih =>
    obtain ⟨k, e⟩ := hd
    by_cases hk : k = r'
    · subst hk
      simp only [updateEntry, beq_self_eq_true, if_true]
      have hkr : (k == r) = false := by simp [h]
      simp [List.filter_cons, hkr]
    · have hk' : (k == r') = false := by simp [hk]
      simp only [updateEntry, hk', Bool.false_eq_true, if_false]
      by_cases hkr : k = r
      · subst hkr
        simp [List.filter_cons, ih]
      · have hkr' : (k == r) = false := by simp [hkr]
        simp [List.filter_cons, hkr', ih]

theorem filter_processBlock_ne {s : List (Int × MergedMonitor)}
    {b : RawMonitor} {r : Int} (h : rawRbl b ≠ some r) :
    (processBlock s b).filter (fun p => p.1 == r) =
      s.filter (fun p => p.1 == r) := by
  unfold processBlock
  cases hb : rawRbl b with
  | none => rfl
  | some r' =>
    have hr' : r' ≠ r := by
      intro hrr
      exact h (hb.trans (by rw [hrr]))
    by_cases h0 : r' = 0
    · simp [h0]
    · have h0' : (r' == 0) = false := by simp [h0]
      simp only [h0', Bool.false_eq_true, if_false]
      by_cases he : (b.lines.getD []).isEmpty
      · simp [he]
      · simp only [he, Bool.false_eq_true, if_false]
      
        cases hl : List.lookup r' s with
        | some e => exact filter_updateEntry_ne hr' _
        | none =>
          have : ((r', (⟨b.locationStop, b.lines.getD [], b.attributes⟩ : MergedMonitor)).1 == r) = false := by
            simp [hr']
          simp [List.filter_append, List.filter_cons, this]

theorem filter_foldl_ne {bs : List RawMonitor} {r : Int}
    (h : ∀ b ∈ bs, rawRbl b ≠ some r) (s : List (Int × MergedMonitor)) :
    (List.foldl processBlock s bs).filter (fun p => p.1 == r) =
      s.filter (fun p => p.1 == r) := by
  induction bs generalizing s with
  | nil => rfl
  | cons b bs ih =>
    rw [List.foldl_cons, ih (fun x hx => h x (List.mem_cons_of_mem _ hx)),
      filter_processBlock_ne (h b (List.mem_cons_self _ _))]

theorem lookup_eq_none_of_filter_nil {s : List (Int × MergedMonitor)} {r : Int}
    (h : s.filter (fun p => p.1 == r) = []) : List.lookup r s = none := by
  induction s with
  | nil => rfl
  | cons hd tl ih =>
    obtain ⟨k, e⟩ := hd
    by_cases hk : k = r
    · subst hk
      simp [List.filter_cons] at h
    · have hk1 : (k == r) = false := by simp [hk]
      have hk2 : (r == k) = false := by simp [Ne.symm hk]
      rw [List.filter_cons, hk1] at h
      simp only [Bool.false_eq_true, if_false] at h
      simp [List.lookup, hk2, ih h]

theorem lookup_eq_some_of_filter_singleton {s : List (Int × MergedMonitor)}
    {r : Int} {e : MergedMonitor}
    (h : s.filter (fun p => p.1 == r) = [(r, e)]) :
    List.lookup r s = some e := by
  induction s with
  | nil => simp at h
  | cons hd tl ih =>
    obtain ⟨k, x⟩ := hd
    by_cases hk : k = r
    · subst hk
      rw [List.filter_cons] at h
      simp only [beq_self_eq_true, if_true, List.cons.injEq, Prod.mk.injEq] at h
      simp [List.lookup, h.1.2]
    · have hk1 : (k == r) = false := by simp [hk]
      have hk2 : (r == k) = false := by simp [Ne.symm hk]
      rw [List.filter_cons, hk1] at h
      simp only [Bool.false_eq_true, if_false] at h
      simp [List.lookup, hk2, ih h]

theorem filter_updateEntry_singleton {s : List (Int × MergedMonitor)}
    {r : Int} {e : MergedMonitor} (ls : List RawLine)
    (h : s.filter (fun p => p.1 == r) = [(r, e)]) :
    (updateEntry s r ls).filter (fun p => p.1 == r) =
      [(r, { e with lines := e.lines ++ ls })] := by
  induction s with
  | nil => simp at h
  | cons hd tl ih =>
    obtain ⟨k, x⟩ := hd
    by_cases hk : k = r
    · subst hk
      rw [List.filter_cons] at h
      simp only [beq_self_eq_true, if_true, List.cons.injEq, Prod.mk.injEq] at h
      obtain ⟨⟨-, hx⟩, htl⟩ := h
      subst hx
      simp [updateEntry, List.filter_cons, htl]
    · have hk1 : (k == r) = false := by simp [hk]
      rw [List.filter_cons, hk1] at h
      simp only [Bool.false_eq_true, if_false] at h
      simp [updateEntry, hk1, List.filter_cons, ih h]

theorem filter_processBlock_insert {s : List (Int × MergedMonitor)}
    {b : RawMonitor} {r : Int} {L : List RawLine}
    (hb : rawRbl b = some r) (h0 : r ≠ 0) (hL : b.lines.getD [] = L)
    (hLne : L ≠ []) (hs : s.filter (fun p => p.1 == r) = []) :
    (processBlock s b).filter (fun p => p.1 == r) =
      [(r, ⟨b.locationStop, L, b.attributes⟩)] := by
  have h0' : (r == 0) = false := by simp [h0]
  have hne : (b.lines.getD []).isEmpty = false := by
    rw [hL]
    simpa using hLne
  simp only [processBlock, hb, h0', Bool.false_eq_true, if_false, hne,
    lookup_eq_none_of_filter_nil hs]
  simp [List.filter_append, List.filter_cons, hs, hL]

theorem filter_processBlock_extend {s : List (Int × MergedMonitor)}
    {b : RawMonitor} {r : Int} {e : MergedMonitor} {L : List RawLine}
    (hb : rawRbl b = some r) (h0 : r ≠ 0) (hL : b.lines.getD [] = L)
    (hLne : L ≠ []) (hs : s.filter (fun p => p.1 == r) = [(r, e)]) :
    (processBlock s b).filter (fun p => p.1 == r) =
      [(r, { e with lines := e.lines ++ L })] := by
  have h0' : (r == 0) = false := by simp [h0]
  have hne : (b.lines.getD []).isEmpty = false := by
    rw [hL]
    simpa using hLne
  simp only [processBlock, hb, h0', Bool.false_eq_true, if_false, hne,
    lookup_eq_some_of_filter_singleton hs]
  rw [hL]
  exact filter_updateEntry_singleton L hs

theorem updateEntry_inv {s : List (Int × MergedMonitor)} {r : Int}
    {ls : List RawLine}
    (h : ∀ p ∈ s, stopRbl p.2.locationStop = some p.1 ∧ p.1 ≠ 0 ∧ p.2.lines ≠ []) :
    ∀ p ∈ updateEntry s r ls,
      stopRbl p.2.locationStop = some p.1 ∧ p.1 ≠ 0 ∧ p.2.lines ≠ [] := by
  induction s with
  | nil => intro p hp; simp [updateEntry] at hp
  | cons hd tl ih =>
    obtain ⟨k, e⟩ := hd
    intro p hp
    by_cases hk : k = r
    · subst hk
      simp only [updateEntry, beq_self_eq_true, if_true] at hp
      rcases List.mem_cons.mp hp with h1 | h1
      · subst h1
        have he := h (k, e) (List.mem_cons_self _ _)
        refine ⟨he.1, he.2.1, fun hc => he.2.2 (List.append_eq_nil.mp hc).1⟩
      · exact h _ (List.mem_cons_of_mem _ h1)
    · have hk' : (k == r) = false := by simp [hk]
      simp only [updateEntry, hk', Bool.false_eq_true, if_false] at hp
      rcases List.mem_cons.mp hp with h1 | h1
      · subst h1
        exact h _ (List.mem_cons_self _ _)
      · exact ih (fun q hq => h q (List.mem_cons_of_mem _ hq)) _ h1

theorem processBlock_inv {s : List (Int × MergedMonitor)} {b : RawMonitor}
    (h : ∀ p ∈ s, stopRbl p.2.locationStop = some p.1 ∧ p.1 ≠ 0 ∧ p.2.lines ≠ []) :
    ∀ p ∈ processBlock s b,
      stopRbl p.2.locationStop = some p.1 ∧ p.1 ≠ 0 ∧ p.2.lines ≠ [] := by
  unfold processBlock
  cases hb : rawRbl b with
  | none => exact h
  | some r =>
    by_cases h0 : r = 0
    · simp only [show (r == 0) = true by simp [h0], if_true]
      exact h
    · simp only [show (r == 0) = false by simp [h0], Bool.false_eq_true, if_false]
      by_cases he : (b.lines.getD []).isEmpty
      · simp only [he, if_true]
        exact h
      · simp only [he, Bool.false_eq_true, if_false]
        cases hl : List.lookup r s with
        | some e => exact updateEntry_inv h
        | none =>
          intro p hp
          rcases List.mem_append.mp hp with h1 | h1
          · exact h p h1
          · have hp1 := List.mem_singleton.mp h1
            subst hp1
            refine ⟨hb, h0, fun hc => he ?_⟩
            rw [List.isEmpty_iff]
            exact hc

theorem mergeMonitors_inv (ms : List RawMonitor) :
    ∀ p ∈ mergeMonitors ms,
      stopRbl p.2.locationStop = some p.1 ∧ p.1 ≠ 0 ∧ p.2.lines ≠ [] := by
  suffices h : ∀ s : List (Int × MergedMonitor),
      (∀ p ∈ s, stopRbl p.2.locationStop = some p.1 ∧ p.1 ≠ 0 ∧ p.2.lines ≠ []) →
      ∀ p ∈ List.foldl processBlock s ms,
        stopRbl p.2.locationStop = some p.1 ∧ p.1 ≠ 0 ∧ p.2.lines ≠ [] by
    exact h [] (by simp)
  induction ms with
  | nil => intro s hs; exact hs
  | cons b bs ih =>
    intro s hs
    exact ih _ (processBlock_inv hs)

/-! ## Claims -/

/-- C5 (confirmed): when the cache does not short-circuit and every network
attempt times out, `get_json` issues exactly 3 attempts separated by exactly
2 inter-attempt delays of 1 then 2 time-units (exponential backoff from base
1), then ends in failure; no 4th attempt is issued and no delay follows the
final attempt (the trace records only the two sleeps). -/
theorem getJson_three_timeouts (rest : List AttemptResult)
    (cache : List (String × CacheEntry)) (key : String) (now : Nat)
    (h : cacheFresh cache key now = false) :
    getJson (.timeout :: .timeout :: .timeout :: rest) cache key now =
      ⟨3, [1, 2], none, cache⟩ := by
  rw [getJson_stale _ _ _ _ h]
  simp [runAttempts]

/-- Witness for C5: a concrete all-timeout fetch on an empty cache. -/
theorem getJson_three_timeouts_witness :
    cacheFresh [] "490111042" 100 = false ∧
    getJson [.timeout, .timeout, .timeout] [] "490111042" 100 =
      ⟨3, [1, 2], none, []⟩ :=
  ⟨rfl, getJson_three_timeouts [] [] "490111042" 100 rfl⟩

/-- C8 (confirmed): a fetch whose attempts are `k` timeouts (`k ≤ 2`)
followed by a success stores the merged snapshot with its time `t0` in the
cache and returns it; any fetch for the same stop-set at a time `t1` within
the 30-unit freshness window then issues no network attempt and returns the
identical data. -/
theorem getJson_cache_window (k : Nat) (hk : k ≤ 2) (ms : List RawMonitor)
    (rest outs : List AttemptResult) (cache : List (String × CacheEntry))
    (key : String) (t0 t1 : Nat)
    (hfresh : cacheFresh cache key t0 = false) (hwin : t1 - t0 < 30) :
    getJson (List.replicate k .timeout ++ .success ms :: rest) cache key t0 =
      ⟨k + 1, (List.range k).map (fun i => 2 ^ i), some (mergedSnapshot ms),
        (key, ⟨mergedSnapshot ms, t0⟩) :: cache⟩ ∧
    getJson outs ((key, ⟨mergedSnapshot ms, t0⟩) :: cache) key t1 =
      ⟨0, [], some (mergedSnapshot ms), (key, ⟨mergedSnapshot ms, t0⟩) :: cache⟩ := by
  constructor
  · rw [getJson_stale _ _ _ _ hfresh]
    interval_cases k <;> simp [runAttempts, List.replicate] <;> decide
  · have hl : List.lookup key ((key, (⟨mergedSnapshot ms, t0⟩ : CacheEntry)) :: cache) =
        some ⟨mergedSnapshot ms, t0⟩ := by simp [List.lookup]
    simp only [getJson, hl]
    rw [if_pos hwin]

/-- Witness for C8: a fetch succeeding after two timeouts at time 100, then
a second fetch at time 120 served from the cache with zero attempts. -/
theorem getJson_cache_window_witness :
    getJson [.timeout, .timeout, .success [goodMonitorRaw]] [] "49" 100 =
      ⟨3, [1, 2], some (mergedSnapshot [goodMonitorRaw]),
        [("49", ⟨mergedSnapshot [goodMonitorRaw], 100⟩)]⟩ ∧
    getJson [] [("49", ⟨mergedSnapshot [goodMonitorRaw], 100⟩)] "49" 120 =
      ⟨0, [], some (mergedSnapshot [goodMonitorRaw]),
        [("49", ⟨mergedSnapshot [goodMonitorRaw], 100⟩)]⟩ := by
  have h := getJson_cache_window 2 (by norm_num) [goodMonitorRaw] [] [] []
    "49" 100 120 rfl (by norm_num)
  exact ⟨h.1, h.2⟩

/-- Counterexample to C4 as stated: a fetch in which every attempt times out
returns no data even though a cache entry for the queried stop-set exists —
the timeout path never falls back to the cache (only the connection-error
and generic-exception paths do). -/
theorem getJson_all_timeouts_no_fallback :
    List.lookup "490111042" staleCache = some ⟨[], 0⟩ ∧
    getJson [.timeout, .timeout, .timeout] staleCache "490111042" 50 =
      ⟨3, [1, 2], none, staleCache⟩ :=
  ⟨rfl, rfl⟩

/-- C4 (corrected): a fetch ending in a connection error returns the cached
snapshot whenever a cache entry exists (of any age); but a fetch in which
every attempt times out returns no data even when a cache entry exists; and
a connection error with no cache entry returns no data. -/
theorem getJson_fallback_behaviour :
    (∀ (k : Nat), k ≤ 2 → ∀ (rest : List AttemptResult)
      (cache : List (String × CacheEntry)) (key : String) (now : Nat)
      (entry : CacheEntry),
      List.lookup key cache = some entry → cacheFresh cache key now = false →
      (getJson (List.replicate k .timeout ++ .connError :: rest) cache key now).result
        = some entry.data) ∧
    (∀ (rest : List AttemptResult) (cache : List (String × CacheEntry))
      (key : String) (now : Nat) (entry : CacheEntry),
      List.lookup key cache = some entry → cacheFresh cache key now = false →
      (getJson (.timeout :: .timeout :: .timeout :: rest) cache key now).result = none) ∧
    (∀ (k : Nat), k ≤ 2 → ∀ (rest : List AttemptResult) (key : String) (now : Nat),
      (getJson (List.replicate k .timeout ++ .connError :: rest) [] key now).result = none) := by
  refine ⟨?_, ?_, ?_⟩
  · intro k hk rest cache key now entry hl hf
    rw [getJson_stale _ _ _ _ hf]
    interval_cases k <;> simp [runAttempts, List.replicate, hl]
  · intro rest cache key now entry hl hf
    rw [getJson_stale _ _ _ _ hf]
    simp [runAttempts]
  · intro k hk rest key now
    have hf : cacheFresh [] key now = false := rfl
    rw [getJson_stale _ _ _ _ hf]
    interval_cases k <;> simp [runAttempts, List.replicate, List.lookup]

/-- Witness for C4 (amended): concrete connection-error fallback with a
stale cache entry, all-timeout failure despite the same entry, and
connection-error failure with an empty cache. -/
theorem getJson_fallback_behaviour_witness :
    (getJson [.connError] staleCache "490111042" 50).result = some [] ∧
    (getJson [.timeout, .timeout, .timeout] staleCache "490111042" 50).result = none ∧
    (getJson [.connError] [] "490111042" 50).result = none := by
  refine ⟨?_, ?_, ?_⟩
  · exact getJson_fallback_behaviour.1 0 (by norm_num) [] staleCache
      "490111042" 50 ⟨[], 0⟩ rfl rfl
  · exact getJson_fallback_behaviour.2.1 [] staleCache "490111042" 50 ⟨[], 0⟩ rfl rfl
  · exact getJson_fallback_behaviour.2.2 0 (by norm_num) [] "490111042" 50

/-- C10 (confirmed): the merge step silently drops every raw monitor block
whose `rbl` is absent or falsy or whose lines list is empty, and every
monitor of a merged snapshot has a truthy stop identifier and a non-empty
lines list. -/
theorem merge_drops_falsy_and_empty :
    (∀ (s : List (Int × MergedMonitor)) (m : RawMonitor),
      (rawRbl m = none ∨ rawRbl m = some 0 ∨ m.lines.getD [] = []) →
      processBlock s m = s) ∧
    (∀ (ms : List RawMonitor) (mm : MergedMonitor), mm ∈ mergedSnapshot ms →
      (∃ r : Int, stopRbl mm.locationStop = some r ∧ r ≠ 0) ∧ mm.lines ≠ []) := by
  constructor
  · intro s m hm
    unfold processBlock
    rcases hm with h | h | h
    · rw [h]
    · rw [h]
      simp
    · cases hb : rawRbl m with
      | none => rfl
      | some r =>
        by_cases h0 : r = 0
        · simp [h0]
        · simp [show (r == 0) = false by simp [h0], h]
  · intro ms mm hmm
    obtain ⟨p, hp, hpe⟩ := List.mem_map.mp hmm
    have hi := mergeMonitors_inv ms p hp
    exact ⟨⟨p.1, hpe ▸ hi.1, hi.2.1⟩, hpe ▸ hi.2.2⟩

/-- Witness for C10: a falsy-rbl block is dropped, and the sole monitor of
a concrete merged snapshot has a truthy id and non-empty lines. -/
theorem merge_drops_falsy_and_empty_witness :
    processBlock [] zeroRblBlock = [] ∧
    ((∃ r : Int, stopRbl (⟨some locRawR1, [goodRawLine], none⟩ : MergedMonitor).locationStop = some r ∧ r ≠ 0) ∧
      (⟨some locRawR1, [goodRawLine], none⟩ : MergedMonitor).lines ≠ []) := by
  constructor
  · exact merge_drops_falsy_and_empty.1 [] zeroRblBlock (Or.inr (Or.inl rfl))
  · exact merge_drops_falsy_and_empty.2 [stop1BlockA]
      ⟨some locRawR1, [goodRawLine], none⟩ (by decide)

/-- Counterexample to C2 as stated: a metro-type raw line supplying one
line-level vehicle record and three departure-time records (no per-departure
vehicle sub-records) does not normalize into 3 Departures — parsing the
line fails outright, since `Departure.from_dict` indexes `data["vehicle"]`
on every entry and no broadcast is performed. -/
theorem metro_line_fails_to_parse :
    Line.from_dict metroRawLine = none ∧
    (metroRawLine.departures.getD []).length = 3 ∧
    metroRawLine.vehicle = some metroVehicleRaw :=
  ⟨rfl, rfl, rfl⟩

/-- C2 (corrected): the normalizer expects a vehicle sub-record inside each
departure entry; a line whose raw block supplies a (single, line-level)
vehicle record while any of its departure entries lacks a per-departure
vehicle sub-record fails to normalize — the vehicle is never broadcast. -/
theorem line_requires_vehicle_per_departure (l : RawLine) (v : RawVehicle)
    (e : RawDeparture) (hlv : l.vehicle = some v)
    (he : e ∈ l.departures.getD []) (hev : e.vehicle = none) :
    Line.from_dict l = none := by
  have hd : (l.departures.getD []).mapM Departure.from_dict = none :=
    mapM_option_eq_none _ _ e he (Departure.from_dict_eq_none_of_no_vehicle hev)
  unfold Line.from_dict
  have hd' : List.mapM.loop Departure.from_dict (l.departures.getD []) [] = none := hd
  cases l.name <;> cases l.towards <;> cases l.direction <;> cases l.platform <;>
    cases l.barrierFree <;> cases l.lineId <;> cases l.type <;> simp [hd, hd']

/-- Witness for C2 (amended): a concrete metro-style line with a line-level
vehicle and two vehicle-less departure entries fails to parse. -/
theorem line_requires_vehicle_per_departure_witness :
    Line.from_dict metroRawLine2 = none :=
  line_requires_vehicle_per_departure metroRawLine2 metroVehicleRaw
    (metroDepEntry 100) rfl (by decide) rfl

/-- Counterexample to C3 as stated: a raw vehicle carrying its numeric line
id only under the alternative field name (`lineId` present, `linienId`
absent) fails to normalize, and the failure does not stay confined to that
line — the entire monitor containing it is dropped, its other (good) line
included, while only the other monitor of the batch is produced. -/
theorem altId_vehicle_and_monitor_dropped :
    Vehicle.from_dict altIdVehicleRaw = none ∧
    parse_api_response (mkResponse [altIdMonitorRaw, goodMonitorRaw]) =
      [goodMonitorParsed] :=
  ⟨rfl, rfl⟩

/-- C3 (corrected): the numeric line identifier is resolved only from the
raw field `linienId` — when it is absent the vehicle fails to normalize even
if the alternative field name carries an id — and such a failure skips the
entire enclosing monitor while the other monitors of the batch are still
produced. -/
theorem vehicle_linienId_only_and_monitor_skip :
    (∀ (v : RawVehicle) (j : Int), v.lineId = some j → v.linienId = none →
      Vehicle.from_dict v = none) ∧
    (∀ (pre post : List RawMonitor) (m : RawMonitor),
      Monitor.from_dict m = none →
      parse_api_response (mkResponse (pre ++ m :: post)) =
        parse_api_response (mkResponse pre) ++ parse_api_response (mkResponse post)) := by
  constructor
  · intro v j hj hn
    unfold Vehicle.from_dict
    cases v.name <;> cases v.towards <;> cases v.direction <;>
      cases v.platform <;> cases v.barrierFree <;> simp [hn]
  · intro pre post m hm
    simp [parse_api_response, mkResponse, List.filterMap_append,
      List.filterMap_cons, hm]

/-- Witness for C3 (amended): the concrete alternative-id vehicle fails,
and dropping the concrete bad monitor splits the batch around it. -/
theorem vehicle_linienId_only_and_monitor_skip_witness :
    Vehicle.from_dict altIdVehicleRaw = none ∧
    parse_api_response (mkResponse ([goodMonitorRaw] ++ altIdMonitorRaw :: [])) =
      parse_api_response (mkResponse [goodMonitorRaw]) ++
        parse_api_response (mkResponse []) := by
  constructor
  · exact vehicle_linienId_only_and_monitor_skip.1 altIdVehicleRaw 301 rfl rfl
  · exact vehicle_linienId_only_and_monitor_skip.2 [goodMonitorRaw] []
      altIdMonitorRaw rfl

/-- Counterexample to C7 as stated: a monitor whose second line fails to
parse (missing `countdown`) is dropped in its entirety — including its
perfectly good first line — rather than only the smallest affected unit
(the bad line) being skipped; the remaining monitor of the batch survives. -/
theorem bad_line_drops_whole_monitor :
    Monitor.from_dict noCountdownMonitorRaw = none ∧
    parse_api_response (mkResponse [noCountdownMonitorRaw, goodMonitorRaw]) =
      [goodMonitorParsed] :=
  ⟨rfl, rfl⟩

/-- C7 (corrected): a snapshot lacking the `data`/`monitors` container
normalizes to the empty sequence, and a parse failure of an individual
monitor — including a failure inside any one of its lines — skips that
whole monitor while every remaining monitor of the batch is still
normalized and returned. -/
theorem parse_structural_and_monitor_skip :
    (∀ r : RawResponse, r.data = none → parse_api_response r = []) ∧
    (∀ block : RawDataBlock, block.monitors = none →
      parse_api_response ⟨some block⟩ = []) ∧
    (∀ (pre post : List RawMonitor) (m : RawMonitor),
      Monitor.from_dict m = none →
      parse_api_response (mkResponse (pre ++ m :: post)) =
        parse_api_response (mkResponse (pre ++ post))) := by
  refine ⟨?_, ?_, ?_⟩
  · intro r h
    simp [parse_api_response, h]
  · intro block h
    simp [parse_api_response, h]
  · intro pre post m hm
    simp [parse_api_response, mkResponse, List.filterMap_append,
      List.filterMap_cons, hm]

/-- Witness for C7 (amended): a container-less response yields `[]`, and
dropping the concrete bad monitor equals parsing the batch without it. -/
theorem parse_structural_and_monitor_skip_witness :
    parse_api_response ⟨none⟩ = [] ∧
    parse_api_response (mkResponse ([goodMonitorRaw] ++ noCountdownMonitorRaw :: [])) =
      parse_api_response (mkResponse ([goodMonitorRaw] ++ [])) := by
  constructor
  · exact parse_structural_and_monitor_skip.1 ⟨none⟩ rfl
  · exact parse_structural_and_monitor_skip.2.2 [goodMonitorRaw] []
      noCountdownMonitorRaw rfl

/-- Counterexample to C6 as stated: two raw monitor blocks sharing a stop
identifier merge into *no* monitor at all — not exactly one with lines
`L1 ++ L2` — when both line lists are empty, and likewise when the shared
identifier is the falsy value 0 even with non-empty lines. -/
theorem merge_degenerate_blocks :
    (mergeMonitors [emptyLinesBlock, emptyLinesBlock]).filter (fun p => p.1 == 1) = [] ∧
    (mergeMonitors [zeroRblBlock, zeroRblBlock]).filter (fun p => p.1 == 0) = [] :=
  ⟨rfl, rfl⟩

/-- C6 (corrected): when a raw response contains two monitor blocks sharing
the same truthy stop identifier `r`, both with non-empty line lists, and no
other block carries `r`, the merged snapshot contains exactly one entry for
`r` whose line sequence is `L1 ++ L2` (order preserved) and whose
location/attributes are those of the first-seen block. -/
theorem merge_two_blocks_same_stop (bs1 bs2 bs3 : List RawMonitor)
    (b1 b2 : RawMonitor) (r : Int) (L1 L2 : List RawLine)
    (hr : r ≠ 0) (h1 : rawRbl b1 = some r) (hL1 : b1.lines.getD [] = L1)
    (hL1ne : L1 ≠ []) (h2 : rawRbl b2 = some r) (hL2 : b2.lines.getD [] = L2)
    (hL2ne : L2 ≠ [])
    (hout : ∀ b ∈ bs1 ++ (bs2 ++ bs3), rawRbl b ≠ some r) :
    (mergeMonitors (bs1 ++ b1 :: (bs2 ++ b2 :: bs3))).filter (fun p => p.1 == r) =
      [(r, ⟨b1.locationStop, L1 ++ L2, b1.attributes⟩)] := by
  have hb1 : ∀ b ∈ bs1, rawRbl b ≠ some r :=
    fun b hb => hout b (List.mem_append_left _ hb)
  have hb2 : ∀ b ∈ bs2, rawRbl b ≠ some r :=
    fun b hb => hout b (List.mem_append_right _ (List.mem_append_left _ hb))
  have hb3 : ∀ b ∈ bs3, rawRbl b ≠ some r :=
    fun b hb => hout b (List.mem_append_right _ (List.mem_append_right _ hb))
  unfold mergeMonitors
  rw [List.foldl_append, List.foldl_cons, List.foldl_append, List.foldl_cons]
  have s1 : (List.foldl processBlock [] bs1).filter (fun p => p.1 == r) = [] := by
    rw [filter_foldl_ne hb1]
    rfl
  have s2 := filter_processBlock_insert h1 hr hL1 hL1ne s1
  have s3 : (List.foldl processBlock
      (processBlock (List.foldl processBlock [] bs1) b1) bs2).filter
        (fun p => p.1 == r) =
      [(r, ⟨b1.locationStop, L1, b1.attributes⟩)] := by
    rw [filter_foldl_ne hb2, s2]
  have s4 := filter_processBlock_extend h2 hr hL2 hL2ne s3
  rw [filter_foldl_ne hb3, s4]

/-- Witness for C6 (amended): two concrete blocks for stop 1 merge into one
entry concatenating their line lists, keeping the first block's location. -/
theorem merge_two_blocks_same_stop_witness :
    (mergeMonitors [stop1BlockA, stop1BlockB]).filter (fun p => p.1 == 1) =
      [(1, ⟨some locRawR1, [goodRawLine] ++ [altIdRawLine], none⟩)] := by
  have h := merge_two_blocks_same_stop [] [] [] stop1BlockA stop1BlockB 1
    [goodRawLine] [altIdRawLine] (by norm_num) rfl rfl (by simp) rfl rfl
    (by simp) (by intro b hb; simp at hb)
  exact h

/-- Counterexample to C1 as stated: a next departure whose effective time is
one second before `now` yields `"Now"`, not `"Departed"` — the code
truncates the minute quotient toward zero (`int(...)`), it does not floor
it. -/
theorem nativeValue_one_second_past :
    nativeValue [monNowBoundary] 10 126 "H" "Strebersdorf" 1000 = some "Now" ∧
    (some "Now" : Option String) ≠ some "Departed" := by
  exact ⟨rfl, by decide⟩

/-- C1 (corrected): with `minutes` the *truncation toward zero* of
`(effective_time − now) / 60`, a non-empty filtered list classifies its
first (earliest-planned) departure as `"Departed"` when
`effective_time ≤ now − 60`, as `"Now"` on the whole open interval
`now − 60 < effective_time < now + 60` (in particular at `now − 1` and at
`now`), and as `"Arriving in N min"` with `N = minutes ≥ 1` when
`now + 60 ≤ effective_time` (in particular `N = 1` at `now + 61`); an empty
filtered list yields no value. -/
theorem nativeValue_classification (monitors : List Monitor) (rbl lineId : Int)
    (direction towards : String) (now : Int) :
    (filteredDepartures monitors rbl lineId direction towards = [] →
      nativeValue monitors rbl lineId direction towards now = none) ∧
    (∀ next rest,
      filteredDepartures monitors rbl lineId direction towards = next :: rest →
      (effTime next ≤ now - 60 →
        nativeValue monitors rbl lineId direction towards now = some "Departed") ∧
      (now - 60 < effTime next → effTime next < now + 60 →
        nativeValue monitors rbl lineId direction towards now = some "Now") ∧
      (now + 60 ≤ effTime next →
        1 ≤ Int.tdiv (effTime next - now) 60 ∧
        nativeValue monitors rbl lineId direction towards now =
          some ("Arriving in " ++ toString (Int.tdiv (effTime next - now) 60) ++ " min"))) := by
  constructor
  · intro h
    simp [nativeValue, h]
  · intro next rest hfil
    have hval : nativeValue monitors rbl lineId direction towards now =
        (if Int.tdiv (effTime next - now) 60 < 0 then some "Departed"
         else if Int.tdiv (effTime next - now) 60 = 0 then some "Now"
         else some ("Arriving in " ++ toString (Int.tdiv (effTime next - now) 60) ++ " min")) := by
      simp [nativeValue, hfil]
    refine ⟨?_, ?_, ?_⟩
    · intro h
      have hneg := tdiv_sixty_neg (x := effTime next - now) (by omega)
      rw [hval, if_pos hneg]
    · intro h1 h2
      have hz := tdiv_sixty_zero (x := effTime next - now) (by omega) (by omega)
      rw [hval, hz]
      norm_num
    · intro h
      have hp := tdiv_sixty_pos (x := effTime next - now) (by omega)
      have hne0 : Int.tdiv (effTime next - now) 60 ≠ 0 := by
        intro h0
        rw [h0] at hp
        norm_num at hp
      have hnneg : ¬ Int.tdiv (effTime next - now) 60 < 0 := by linarith
      rw [hval, if_neg hnneg, if_neg hne0]
      exact ⟨hp, rfl⟩

/-- Witness for C1 (amended): a concrete departure 61 seconds ahead of
`now` is classified `"Arriving in 1 min"`. -/
theorem nativeValue_classification_witness :
    nativeValue [monArriving] 10 126 "H" "Strebersdorf" 1000 =
      some "Arriving in 1 min" := by
  have h := ((nativeValue_classification [monArriving] 10 126 "H" "Strebersdorf"
    1000).2 ⟨⟨1061, none, 1⟩, tramVehicle⟩ [] rfl).2.2 (by decide)
  exact h.2.trans (by decide)

/-- Counterexample to C9 as stated: with a line whose feed order lists the
planned-200 departure before the planned-100 one, `next_departures` reports
the pair timed 200 — the first departure in feed order — and does not
contain the chronologically-nearest one timed 100. -/
theorem next_departures_not_nearest :
    Monitor.next_departures monFeedOrder = [("26 to Strandbad", 200)] ∧
    ("26 to Strandbad", (100 : Int)) ∉ Monitor.next_departures monFeedOrder := by
  exact ⟨rfl, by decide⟩

/-- C9 (corrected): for every line with a non-empty departure list the
derived view contains the pair built from the line's *first departure in
feed order* (timed by real time if present else planned time), and the view
is sorted ascending by that time. -/
theorem next_departures_feed_head (m : Monitor) :
    (Monitor.next_departures m).Sorted (fun a b => a.2 ≤ b.2) ∧
    ∀ line ∈ m.lines, ∀ d rest, line.departures = d :: rest →
      (line.name ++ " to " ++ line.towards, effTime d) ∈ Monitor.next_departures m := by
  constructor
  · haveI h1 : IsTotal (String × Int) (fun a b => a.2 ≤ b.2) :=
      ⟨fun a b => le_total a.2 b.2⟩
    haveI h2 : IsTrans (String × Int) (fun a b => a.2 ≤ b.2) :=
      ⟨fun a b c hab hbc => le_trans hab hbc⟩
    exact List.sorted_insertionSort _ _
  · intro line hline d rest hd
    unfold Monitor.next_departures
    rw [List.mem_insertionSort]
    exact List.mem_filterMap.mpr ⟨line, hline, by rw [hd]⟩

/-- Witness for C9 (amended): in a concrete two-line monitor the pair of
line 31's first feed departure (real time 55) is in the view. -/
theorem next_departures_feed_head_witness :
    ("31 to Stammersdorf", (55 : Int)) ∈ Monitor.next_departures monTwoLines := by
  have h := (next_departures_feed_head monTwoLines).2
    ⟨"31", "Stammersdorf", "H", "2", true, 231, "ptTram",
      [⟨⟨50, some 55, 0⟩, tramVehicle⟩]⟩ (by decide)
    ⟨⟨50, some 55, 0⟩, tramVehicle⟩ [] rfl
  exact h
